import Mathlib

/-!
Verification of the pretext-cli core (src/pretext/utils.py, src/pretext/cli.py)
against its natural-language specification.

The Python source is shallowly embedded: pure functions become Lean functions,
the XML manifest becomes an inductive tree, stateful code becomes explicit
state passing, and fallible code returns `Option` or an explicit result type.
-/

namespace Pretext

/-! ## Filesystem paths

A directory path is modelled as its list of components, deepest component
first; `[]` is the filesystem root, so `/A/B/C` is `["C", "B", "A"]`.
`os.path.dirname` drops the deepest component, and the root is the unique
directory that is its own parent — exactly the termination test used by
`project_path`. -/

abbrev Path := List String

/-- `os.path.dirname`: parent directory; the root is its own parent. -/
def dirname (p : Path) : Path := p.tail

/-- A directory equals its own parent exactly at the filesystem root. -/
theorem dirname_eq_self_iff (p : Path) : dirname p = p ↔ p = [] := by
  cases p with
  | nil => simp [dirname]
  | cons a as =>
    simp only [dirname, List.tail_cons]
    constructor
    · intro h
      have hlen := congrArg List.length h
      simp at hlen
    · intro h; exact absurd h (by simp)

/-! ## `project_path` (utils.py lines 51-61)

```python
def project_path(dirpath=os.getcwd()):
    if os.path.isfile(os.path.join(dirpath,'project.ptx')):
        return dirpath
    parentpath = os.path.dirname(dirpath)
    if parentpath == dirpath:
        return None
    else:
        return project_path(dirpath=parentpath)
```

The filesystem is abstracted by a predicate `hasManifest d`, true when the
file `project.ptx` exists directly inside directory `d`
(`os.path.isfile(os.path.join(d, 'project.ptx'))`).  The recursion is written
structurally on the component list; `project_path_eq` below shows it satisfies
the source's recurrence verbatim (the guard `parentpath == dirpath` holds
exactly when the component list is empty, by `dirname_eq_self_iff`). -/

def project_path (hasManifest : Path → Bool) (dirpath : Path) : Option Path :=
  if hasManifest dirpath then
    some dirpath
  else
    match dirpath with
    | [] => none
    | _ :: parentpath => project_path hasManifest parentpath

/-- The embedding satisfies the Python source's recurrence literally:
test for the manifest, then compare the parent with the directory itself,
then recurse on the parent. -/
theorem project_path_eq (hm : Path → Bool) (p : Path) :
    project_path hm p =
      if hm p then some p
      else if dirname p = p then none
      else project_path hm (dirname p) := by
  cases p with
  | nil => simp [project_path, dirname]
  | cons a as =>
    by_cases h : hm (a :: as) = true
    · simp [project_path, h]
    · simp only [Bool.not_eq_true] at h
      rw [project_path]
      simp [h, dirname, dirname_eq_self_iff]

/-- The chain of ancestors of a directory, starting with the directory itself
and ending with the filesystem root. -/
def ancestors : Path → List Path
  | [] => [[]]
  | a :: as => (a :: as) :: ancestors as

theorem project_path_eq_find (hm : Path → Bool) (p : Path) :
    project_path hm p = (ancestors p).find? hm := by
  induction p with
  | nil =>
    by_cases h : hm []
    · simp [project_path, ancestors, List.find?, h]
    · simp only [Bool.not_eq_true] at h
      simp [project_path, ancestors, List.find?, h]
  | cons a as ih =>
    by_cases h : hm (a :: as)
    · simp [project_path, ancestors, List.find?, h]
    · simp only [Bool.not_eq_true] at h
      simp [project_path, ancestors, List.find?, h, ih]

/-- C2: `project_path` returns the nearest ancestor directory (the start
itself included) that directly contains `project.ptx` — `List.find?` over the
start-to-root ancestor chain returns the first hit — and returns `none` when
no ancestor up to the filesystem root contains it; being a total function, it
never raises for a missing manifest. -/
theorem C2_project_path_locates_nearest (hm : Path → Bool) (p : Path) :
    project_path hm p = (ancestors p).find? hm ∧
    ((∀ q ∈ ancestors p, hm q = false) → project_path hm p = none) := by
  refine ⟨project_path_eq_find hm p, fun h => ?_⟩
  rw [project_path_eq_find]
  exact List.find?_eq_none.mpr (fun q hq => by simp [h q hq])

theorem C2_project_path_witness :
    project_path (fun _ => false) ["C", "B", "A"] = none :=
  (C2_project_path_locates_nearest (fun _ => false) ["C", "B", "A"]).2
    (by decide)

/-! ## The manifest XML model

`project.ptx` is parsed by lxml into an element tree.  An element is its tag,
its text (`None` when the element has no text node, as lxml reports), and its
child elements in document order. -/

structure Elem where
  tag : String
  text : Option String
  children : List Elem
deriving Repr

/-- All elements matching a `tag1/tag2/...` path below `e`, in document
order: `ElementTree.findall` semantics for simple tag paths. -/
def findall : Elem → List String → List Elem
  | e, [] => [e]
  | e, t :: rest =>
    (e.children.filter (fun c => c.tag = t)).flatMap (fun c => findall c rest)

/-- `ElementTree.find`: the first element matching the path in document
order, or `None`. -/
def find (e : Elem) (path : List String) : Option Elem :=
  (findall e path).head?

/-- Python's `str.strip()` with no argument: remove leading and trailing
whitespace. -/
def strip (s : String) : String :=
  ⟨((s.data.dropWhile Char.isWhitespace).reverse.dropWhile
      Char.isWhitespace).reverse⟩

/-! ## `target_xml` (utils.py lines 68-76)

```python
def target_xml(alias=None,dirpath=os.getcwd()):
    if alias is None:
        return project_xml().find("targets/target")
    xpath = f'targets/target/alias[text()="{alias}"]'
    matches = project_xml().xpath(xpath)
    if len(matches) == 0:
        log.info(f"No targets with alias {alias} found in project manifest file project.ptx.")
        return None
    return project_xml().xpath(xpath)[0].getparent()
```

`root` is the root element of the parsed manifest.  The XPath selects, in
document order, every `alias` child (with matching text) of every `target`
child of every `targets` child of the root; the code then takes the parent
of the first match.  `aliasMatches` lists the parent of each XPath match in
the same order.  The second result component records whether the
informational log line was emitted. -/

def aliasMatches (root : Elem) (a : String) : List Elem :=
  (findall root ["targets", "target"]).flatMap
    (fun t =>
      (t.children.filter
        (fun al => al.tag = "alias" && al.text == some a)).map (fun _ => t))

def target_xml (root : Elem) (aliasName : Option String) : Option Elem × Bool :=
  match aliasName with
  | none => (find root ["targets", "target"], false)
  | some a =>
    match (aliasMatches root a).head? with
    | none => (none, true)
    | some t => (some t, false)

theorem mem_aliasMatches {root : Elem} {a : String} {t : Elem} :
    t ∈ aliasMatches root a ↔
      t ∈ findall root ["targets", "target"] ∧
        ∃ al ∈ t.children, al.tag = "alias" ∧ al.text = some a := by
  simp only [aliasMatches, List.mem_flatMap, List.mem_map, List.mem_filter]
  constructor
  · rintro ⟨t', ht', al, ⟨hal, hpred⟩, rfl⟩
    refine ⟨ht', al, hal, ?_⟩
    simpa using hpred
  · rintro ⟨ht, al, hal, htag, htext⟩
    exact ⟨t, ht, ⟨al, ⟨hal, by simp [htag, htext]⟩, rfl⟩⟩

/-- C3: with no alias, `target_xml` returns the first target element of the
manifest in document order; with an alias, any returned element is a target
whose child `alias` text equals the alias exactly; when no target has a
matching alias, it returns `none` after emitting the informational log line
(the `true` flag), never substituting a default target, and being total it
never raises. -/
theorem C3_target_xml_lookup (root : Elem) (a : String) :
    target_xml root none = ((findall root ["targets", "target"]).head?, false) ∧
    (∀ t, (target_xml root (some a)).1 = some t →
      t ∈ findall root ["targets", "target"] ∧
        ∃ al ∈ t.children, al.tag = "alias" ∧ al.text = some a) ∧
    ((∀ t ∈ findall root ["targets", "target"],
        ∀ al ∈ t.children, al.tag = "alias" → al.text ≠ some a) →
      target_xml root (some a) = (none, true)) ∧
    ((∃ t ∈ findall root ["targets", "target"],
        ∃ al ∈ t.children, al.tag = "alias" ∧ al.text = some a) →
      (target_xml root (some a)).1.isSome = true) := by
  refine ⟨rfl, ?_, ?_, ?_⟩
  · intro t ht
    rw [← mem_aliasMatches]
    simp only [target_xml] at ht
    rcases hh : (aliasMatches root a).head? with _ | t'
    · rw [hh] at ht; simp at ht
    · rw [hh] at ht
      simp only [Option.some.injEq] at ht
      subst ht
      exact List.mem_of_mem_head? hh
  · intro hnone
    have hempty : aliasMatches root a = [] := by
      rw [List.eq_nil_iff_forall_not_mem]
      intro t ht
      rcases mem_aliasMatches.mp ht with ⟨hmem, al, hal, htag, htext⟩
      exact hnone t hmem al hal htag htext
    simp [target_xml, hempty]
  · rintro ⟨t, hmem, al, hal, htag, htext⟩
    have ht : t ∈ aliasMatches root a :=
      mem_aliasMatches.mpr ⟨hmem, al, hal, htag, htext⟩
    rcases List.ne_nil_of_mem ht with hne
    simp only [target_xml]
    rcases hh : (aliasMatches root a).head? with _ | t'
    · exact absurd (List.head?_eq_none_iff.mp hh) hne
    · rfl

/-- A concrete manifest with two targets aliased `intro` and `exercises`. -/
def demoTargetIntro : Elem :=
  ⟨"target", none,
    [⟨"alias", some "intro", []⟩, ⟨"source", some "main.ptx", []⟩]⟩

def demoTargetExercises : Elem :=
  ⟨"target", none, [⟨"alias", some "exercises", []⟩]⟩

def demoManifest : Elem :=
  ⟨"project", none, [⟨"targets", none, [demoTargetIntro, demoTargetExercises]⟩]⟩

theorem C3_target_xml_witness :
    target_xml demoManifest (some "nope") = (none, true) ∧
    (demoTargetIntro ∈ findall demoManifest ["targets", "target"] ∧
      ∃ al ∈ demoTargetIntro.children,
        al.tag = "alias" ∧ al.text = some "intro") :=
  ⟨(C3_target_xml_lookup demoManifest "nope").2.2.1 (by decide),
   (C3_target_xml_lookup demoManifest "intro").2.1 demoTargetIntro rfl⟩

/-! ## `update_from_project_xml` (utils.py lines 78-83)

```python
def update_from_project_xml(xpath,default=None):
    custom = project_xml().find(xpath)
    if custom is not None:
        return custom.text.strip()
    else:
        return default
```

When the matched element exists but carries no text node, lxml reports
`custom.text` as `None` and `None.strip()` raises `AttributeError`; the
embedding makes that outcome explicit. -/

inductive PyResult (α : Type) where
  | ok : α → PyResult α
  | attributeError : PyResult α
deriving Repr, DecidableEq

def update_from_project_xml (root : Elem) (xpath : List String)
    (default : Option String) : PyResult (Option String) :=
  match find root xpath with
  | some custom =>
    match custom.text with
    | some t => .ok (some (strip t))
    | none => .attributeError
  | none => .ok default

/-- A manifest whose `latex-engine` element is present but empty
(`<latex-engine/>`), so its lxml `.text` is `None`. -/
def c8Manifest : Elem :=
  ⟨"project", none, [⟨"latex-engine", none, []⟩]⟩

/-- C8 counterexample: the claim says a present element yields its trimmed
text, but on a present-yet-empty element the call raises `AttributeError`
(`None.strip()`): it returns neither any text (not even the empty string)
nor the default. -/
theorem C8_counterexample :
    (find c8Manifest ["latex-engine"]).isSome = true ∧
    update_from_project_xml c8Manifest ["latex-engine"] (some "pdflatex") =
      PyResult.attributeError ∧
    update_from_project_xml c8Manifest ["latex-engine"] (some "pdflatex") ≠
      PyResult.ok (some "") ∧
    update_from_project_xml c8Manifest ["latex-engine"] (some "pdflatex") ≠
      PyResult.ok (some "pdflatex") := by
  refine ⟨rfl, rfl, ?_, ?_⟩ <;> decide

/-- C8 amended: when an element is present at the path *and carries text*,
the lookup returns that text trimmed; when no element is present, it returns
the default unchanged; when the element is present without text, the call
raises `AttributeError` instead of returning. -/
theorem C8_update_from_project_xml (root : Elem) (xp : List String)
    (d : Option String) :
    (∀ e t, find root xp = some e → e.text = some t →
      update_from_project_xml root xp d = PyResult.ok (some (strip t))) ∧
    (find root xp = none → update_from_project_xml root xp d = PyResult.ok d) ∧
    (∀ e, find root xp = some e → e.text = none →
      update_from_project_xml root xp d = PyResult.attributeError) := by
  refine ⟨?_, ?_, ?_⟩ <;> intros <;> simp_all [update_from_project_xml]

/-- A manifest carrying `<latex-engine>  xelatex </latex-engine>`. -/
def c8TextManifest : Elem :=
  ⟨"project", none, [⟨"latex-engine", some "  xelatex ", []⟩]⟩

theorem C8_update_from_project_xml_witness :
    update_from_project_xml c8TextManifest ["latex-engine"] (some "pdflatex") =
      PyResult.ok (some (strip "  xelatex ")) ∧
    update_from_project_xml c8TextManifest ["missing"] (some "pdflatex") =
      PyResult.ok (some "pdflatex") ∧
    update_from_project_xml c8Manifest ["latex-engine"] none =
      PyResult.attributeError :=
  ⟨(C8_update_from_project_xml c8TextManifest ["latex-engine"]
      (some "pdflatex")).1 ⟨"latex-engine", some "  xelatex ", []⟩
      "  xelatex " rfl rfl,
   (C8_update_from_project_xml c8TextManifest ["missing"]
      (some "pdflatex")).2.1 rfl,
   (C8_update_from_project_xml c8Manifest ["latex-engine"] none).2.2
      ⟨"latex-engine", none, []⟩ rfl rfl⟩

/-! ## `serve_forever` (utils.py lines 143-158)

```python
def serve_forever(directory,binding,port):
    class RequestHandler(SimpleHTTPRequestHandler):
        def __init__(self, *args, **kwargs):
            super().__init__(*args, directory=directory, **kwargs)
        def end_headers(self):
            self.send_my_headers()
            SimpleHTTPRequestHandler.end_headers(self)
        def send_my_headers(self):
            self.send_header("Cache-Control", "no-cache, no-store, must-revalidate")
            self.send_header("Pragma", "no-cache")
            self.send_header("Expires", "0")
    class TCPServer(socketserver.TCPServer):
        allow_reuse_address = True
    with TCPServer((binding, port), RequestHandler) as httpd:
        httpd.serve_forever()
```

Headers accumulate in order as `send_header` calls; every response the base
`SimpleHTTPRequestHandler` produces — success or error, whatever the
requested path — is flushed through exactly one `end_headers` call, which
here first appends the three no-cache headers and then terminates the header
block (the base `end_headers` adds no further headers). -/

def no_cache_headers : List (String × String) :=
  [("Cache-Control", "no-cache, no-store, must-revalidate"),
   ("Pragma", "no-cache"),
   ("Expires", "0")]

def send_my_headers (sent : List (String × String)) : List (String × String) :=
  sent ++ no_cache_headers

def end_headers (sent : List (String × String)) : List (String × String) :=
  send_my_headers sent

/-- The final header list of a response: the base handler's path-dependent
headers, flushed through the overridden `end_headers`. -/
def response_headers (baseHeadersFor : String → List (String × String))
    (path : String) : List (String × String) :=
  end_headers (baseHeadersFor path)

/-- C5: every response of the preview server, whatever the requested path and
whatever headers the base handler chose for it, carries all three
cache-disabling headers. -/
theorem C5_no_cache_headers_always_present
    (baseHeadersFor : String → List (String × String)) (path : String) :
    ("Cache-Control", "no-cache, no-store, must-revalidate") ∈
        response_headers baseHeadersFor path ∧
    ("Pragma", "no-cache") ∈ response_headers baseHeadersFor path ∧
    ("Expires", "0") ∈ response_headers baseHeadersFor path := by
  simp [response_headers, end_headers, send_my_headers, no_cache_headers]

/-- The TCP server state `serve_forever` creates: it binds verbatim to the
`(binding, port)` pair it is given, with address reuse enabled. -/
structure ServerConfig where
  directory : String
  address : String
  port : Nat
  allow_reuse_address : Bool
deriving Repr, DecidableEq

def serve_forever (directory binding : String) (port : Nat) : ServerConfig :=
  { directory := directory, address := binding, port := port,
    allow_reuse_address := true }

/-- The `-a`/`--access` choice of `pretext view` (cli.py lines 304-314). -/
inductive Access where
  | pub
  | priv
deriving Repr, DecidableEq

def loopback_address : String := "localhost"
def all_interfaces_address : String := "0.0.0.0"

/-- Modelled from the spec: the translation of the access policy into a bind
address happens in `Project.view` (project.py, which is not under src/);
per the spec, "private binds to loopback only; public binds to all
interfaces, making the server reachable from other hosts on the local
network". -/
def bind_address : Access → String
  | .priv => loopback_address
  | .pub => all_interfaces_address

/-- C6: starting the preview server under a bind policy makes the listening
address loopback-only for the private policy and all-interfaces for the
public policy, and the listening port is exactly the caller-specified
port. -/
theorem C6_bind_policy (directory : String) (a : Access) (port : Nat) :
    (a = Access.priv →
      (serve_forever directory (bind_address a) port).address =
        loopback_address) ∧
    (a = Access.pub →
      (serve_forever directory (bind_address a) port).address =
        all_interfaces_address) ∧
    (serve_forever directory (bind_address a) port).port = port := by
  refine ⟨?_, ?_, rfl⟩ <;> rintro rfl <;> rfl

theorem C6_bind_policy_witness :
    (serve_forever "output/html" (bind_address Access.priv) 8000).address =
        loopback_address ∧
    (serve_forever "output/html" (bind_address Access.pub) 8000).address =
        all_interfaces_address :=
  ⟨(C6_bind_policy "output/html" Access.priv 8000).1 rfl,
   (C6_bind_policy "output/html" Access.pub 8000).2.1 rfl⟩

/-! ## `HTMLRebuildHandler` (utils.py lines 160-169)

```python
class HTMLRebuildHandler(watchdog.events.FileSystemEventHandler):
    def __init__(self,target):
        self.ptxfile = target.find("source").text.strip()
        self.output = target.find("output-dir").text.strip()
        pub_relpath = target.find("publication").text.strip()
        pub_abspath = os.path.abspath(pub_relpath)
        self.stringparams = {"publisher": pub_abspath}
    def on_any_event(self,event):
        log.info("Changes to source found, rebuilding target...")
        build.html(self.ptxfile,self.output,self.stringparams)
```

`on_any_event` is watchdog's catch-all hook: every event kind (created,
modified, deleted, moved) of every file is dispatched to it, and the body
ignores the event entirely, rebuilding with the fields captured at
construction. -/

/-- `os.path.abspath`: resolve against the current working directory when the
path is relative (a path is absolute exactly when it starts with `/`). -/
def abspath (cwd p : String) : String :=
  if p.data.head? = some '/' then p else cwd ++ "/" ++ p

structure Handler where
  ptxfile : String
  output : String
  stringparams : List (String × String)
deriving Repr, DecidableEq

/-- The constructor; `none` models the `AttributeError` Python would raise
when a required child element or its text is missing. -/
def HTMLRebuildHandler (cwd : String) (target : Elem) : Option Handler :=
  match (find target ["source"]).bind Elem.text,
        (find target ["output-dir"]).bind Elem.text,
        (find target ["publication"]).bind Elem.text with
  | some src, some out, some pub =>
    some { ptxfile := strip src, output := strip out,
           stringparams := [("publisher", abspath cwd (strip pub))] }
  | _, _, _ => none

inductive FSEvent where
  | created (path : String)
  | modified (path : String)
  | deleted (path : String)
  | moved (src dst : String)
deriving Repr, DecidableEq

/-- The arguments of one `build.html` invocation. -/
structure BuildCall where
  source : String
  output_dir : String
  stringparams : List (String × String)
deriving Repr, DecidableEq

def on_any_event (h : Handler) (_event : FSEvent) : BuildCall :=
  { source := h.ptxfile, output_dir := h.output,
    stringparams := h.stringparams }

/-- C7: for every filesystem event of any kind, the rebuild callback invokes
the builder with the bound target's trimmed source path, trimmed output
directory, and a parameter mapping holding the resolved absolute publication
path under the key `publisher` — the values captured at construction — and
the invocation is identical for any two events of the session. -/
theorem C7_rebuild_callback (cwd : String) (target : Elem) (s o p : String)
    (hs : (find target ["source"]).bind Elem.text = some s)
    (ho : (find target ["output-dir"]).bind Elem.text = some o)
    (hp : (find target ["publication"]).bind Elem.text = some p) :
    HTMLRebuildHandler cwd target =
      some ⟨strip s, strip o, [("publisher", abspath cwd (strip p))]⟩ ∧
    (∀ e : FSEvent,
      on_any_event ⟨strip s, strip o, [("publisher", abspath cwd (strip p))]⟩ e =
        ⟨strip s, strip o, [("publisher", abspath cwd (strip p))]⟩) ∧
    (∀ (h : Handler) (e₁ e₂ : FSEvent),
      on_any_event h e₁ = on_any_event h e₂) := by
  refine ⟨?_, fun e => rfl, fun h e₁ e₂ => rfl⟩
  simp [HTMLRebuildHandler, hs, ho, hp]

def c7Target : Elem :=
  ⟨"target", none,
    [⟨"source", some " source/main.ptx ", []⟩,
     ⟨"output-dir", some "output/html", []⟩,
     ⟨"publication", some "publication/publication.ptx", []⟩]⟩

theorem C7_rebuild_callback_witness :
    HTMLRebuildHandler "/home/author/book" c7Target =
      some ⟨"source/main.ptx", "output/html",
        [("publisher", "/home/author/book/publication/publication.ptx")]⟩ ∧
    on_any_event
        ⟨"source/main.ptx", "output/html",
          [("publisher", "/home/author/book/publication/publication.ptx")]⟩
        (FSEvent.deleted "source/ch1.ptx") =
      ⟨"source/main.ptx", "output/html",
        [("publisher", "/home/author/book/publication/publication.ptx")]⟩ := by
  have h := C7_rebuild_callback "/home/author/book" c7Target
    " source/main.ptx " "output/html" "publication/publication.ptx"
    rfl rfl rfl
  exact ⟨h.1, h.2.1 (FSEvent.deleted "source/ch1.ptx")⟩

/-! ## `run_server` (utils.py lines 171-190)

```python
def run_server(directory,binding,port,url,watch_target):
    ...
    threading.Thread(target=lambda: serve_forever(directory,binding,port),daemon=True).start()
    if watch_target is not None:
        ...
        observer.start()
    try:
        while True:
            time.sleep(1)
    except KeyboardInterrupt:
        log.info("")
        log.info("Closing server...")
        if watch_target is not None: observer.stop()
    if watch_target is not None: observer.join()
```

The shutdown path is straight-line, so the preview session is embedded as
the ordered list of its lifecycle events.  The HTTP server runs on a daemon
thread that is never explicitly stopped: its stop completes when the process
exits, after `run_server` returns, which the trace records as the final
`serverStop` event.  `observer.join()` returning is the point at which the
watcher's underlying thread has terminated. -/

inductive Ev where
  | serverThreadStart
  | watcherStart
  | interruptCaught
  | watcherStop
  | watcherJoin
  | serverStop
deriving Repr, DecidableEq

/-- The event trace of a preview session that is interrupted once, for a
session with (`watch = true`) or without (`watch = false`) a watch target. -/
def run_server_trace (watch : Bool) : List Ev :=
  [Ev.serverThreadStart] ++
  (if watch then [Ev.watcherStart] else []) ++
  [Ev.interruptCaught] ++
  (if watch then [Ev.watcherStop] else []) ++
  (if watch then [Ev.watcherJoin] else []) ++
  [Ev.serverStop]

/-- C4: in a session running both the server and the watcher, after the
single interruption the watcher is stopped and its thread joined strictly
before the server's stop completes: the trace contains the stop, the join
and the server stop, with `watcherStop` before `watcherJoin` before
`serverStop`. -/
theorem C4_shutdown_ordering :
    Ev.watcherStop ∈ run_server_trace true ∧
    Ev.watcherJoin ∈ run_server_trace true ∧
    Ev.serverStop ∈ run_server_trace true ∧
    (run_server_trace true).indexOf Ev.watcherStop <
      (run_server_trace true).indexOf Ev.watcherJoin ∧
    (run_server_trace true).indexOf Ev.watcherJoin <
      (run_server_trace true).indexOf Ev.serverStop := by
  decide

/-! ## The `pretext view -d DIRECTORY` call (cli.py lines 341-349)

```python
def view(target,access,port,directory,watch,build):
    target_name=target
    if directory is not None:
        utils.run_server(directory,access,port)
        return
```

`run_server` (utils.py line 171) declares five parameters, none with a
default: `directory, binding, port, url, watch_target`.  The call site
supplies three positional arguments.  A Python call binds positional
arguments left to right and raises `TypeError` when any parameter without a
default is left unbound. -/

def run_server_params : List String :=
  ["directory", "binding", "port", "url", "watch_target"]

def view_run_server_args : List String :=
  ["directory", "access", "port"]

/-- A Python call with only positional arguments, against a signature with
no defaults, succeeds exactly when it supplies one argument per parameter. -/
def python_call_ok (args params : Nat) : Bool := args == params

/-- C9 (refuted by the code): the `view -d` call site does not supply an
argument for each required parameter of `run_server` — it passes three
arguments to a five-parameter signature, so the call raises `TypeError` and
the preview server never starts. -/
theorem C9_view_call_is_missing_arguments :
    view_run_server_args.length = 3 ∧
    run_server_params.length = 5 ∧
    python_call_ok view_run_server_args.length run_server_params.length =
      false := by
  decide

/-! ## `working_directory` (utils.py lines 15-30)

```python
@contextmanager
def working_directory(path):
    current_directory=os.getcwd()
    os.chdir(path)
    try:
        yield
    finally:
        os.chdir(current_directory)
```

The relevant process state is the current working directory.  The body of
the `with` block is a function from the working directory it starts in to an
optional raised exception together with the working directory it leaves
behind (the body may itself `chdir`). -/

def working_directory {Err : Type} (path : String)
    (body : String → Option Err × String) (cwd0 : String) :
    Option Err × String :=
  let current_directory := cwd0
  match body path with
  | (none, _) => (none, current_directory)
  | (some e, _) => (some e, current_directory)

/-- C10: for every path and body, the working directory after the
`working_directory` block equals the directory recorded on entry — on the
normal path and on the error path alike, where the exception still
propagates. -/
theorem C10_working_directory_restores {Err : Type} (path : String)
    (body : String → Option Err × String) (cwd0 : String) :
    (working_directory path body cwd0).2 = cwd0 ∧
    (∀ e, (body path).1 = some e →
      working_directory path body cwd0 = (some e, cwd0)) := by
  constructor
  · rcases h : body path with ⟨_ | e, cwd1⟩ <;>
      simp [working_directory, h]
  · intro e he
    rcases h : body path with ⟨r, cwd1⟩
    rw [h] at he
    simp at he
    subst he
    simp [working_directory, h]

theorem C10_working_directory_witness :
    working_directory "/tmp/build"
        (fun _ => ((some 7, "/somewhere/else") : Option Nat × String))
        "/home/author" = (some 7, "/home/author") :=
  (C10_working_directory_restores "/tmp/build"
      (fun _ => ((some 7, "/somewhere/else") : Option Nat × String))
      "/home/author").2 7 rfl

/-! ## Target resolution for `pretext build` (cli.py lines 284-288)

```python
target = Target(xml_element=target.xml_element(),
                format=format,source=source,output_dir=output,
                publication=publication,stringparams=stringparams,xsl_path=xsl)
```

The CLI passes each command-line option verbatim: click yields `None` for an
option the user did not supply, so `none` below means "override not
supplied" and `some v` means "explicitly supplied as `v`" — including
`some ""`, keeping "not provided" and "explicitly empty" distinct. -/

/-- The per-field data of a target: format, source, output directory,
publication path, transform (xsl) path. -/
structure TargetFields where
  format : Option String
  source : Option String
  output_dir : Option String
  publication : Option String
  xsl_path : Option String
deriving Repr, DecidableEq

/-- An explicitly supplied override wins; an unsupplied one keeps the
manifest value. -/
def mergeField (override manifestValue : Option String) : Option String :=
  match override with
  | some v => some v
  | none => manifestValue

/-- Modelled from the spec: the `Target` constructor lives in `project.py`,
which is not under src/.  Per the spec (§3 Target invariant, §4.3
TargetResolver), "for each modeled field ... the result is override if
override is explicitly set, else value parsed from manifestTargetNode". -/
def resolveTarget (manifest overrides : TargetFields) : TargetFields :=
  { format := mergeField overrides.format manifest.format,
    source := mergeField overrides.source manifest.source,
    output_dir := mergeField overrides.output_dir manifest.output_dir,
    publication := mergeField overrides.publication manifest.publication,
    xsl_path := mergeField overrides.xsl_path manifest.xsl_path }

/-- C1: every modelled field of the resolved target equals the override
value when the override was explicitly supplied and the manifest value when
it was not; an unsupplied override never erases a manifest value. -/
theorem C1_override_merge (m ov : TargetFields) :
    ((∀ v, ov.format = some v → (resolveTarget m ov).format = some v) ∧
      (ov.format = none → (resolveTarget m ov).format = m.format)) ∧
    ((∀ v, ov.source = some v → (resolveTarget m ov).source = some v) ∧
      (ov.source = none → (resolveTarget m ov).source = m.source)) ∧
    ((∀ v, ov.output_dir = some v →
        (resolveTarget m ov).output_dir = some v) ∧
      (ov.output_dir = none →
        (resolveTarget m ov).output_dir = m.output_dir)) ∧
    ((∀ v, ov.publication = some v →
        (resolveTarget m ov).publication = some v) ∧
      (ov.publication = none →
        (resolveTarget m ov).publication = m.publication)) ∧
    ((∀ v, ov.xsl_path = some v → (resolveTarget m ov).xsl_path = some v) ∧
      (ov.xsl_path = none → (resolveTarget m ov).xsl_path = m.xsl_path)) := by
  refine ⟨⟨?_, ?_⟩, ⟨?_, ?_⟩, ⟨?_, ?_⟩, ⟨?_, ?_⟩, ⟨?_, ?_⟩⟩ <;>
    intros <;> simp_all [resolveTarget, mergeField]

/-- The spec's worked example: manifest `format=html, source=main.ptx` with
the single override `format=pdf` resolves to `format=pdf, source=main.ptx`. -/
def c1Manifest : TargetFields :=
  { format := some "html", source := some "main.ptx", output_dir := none,
    publication := none, xsl_path := none }

def c1Overrides : TargetFields :=
  { format := some "pdf", source := none, output_dir := none,
    publication := none, xsl_path := none }

theorem C1_override_merge_witness :
    (resolveTarget c1Manifest c1Overrides).format = some "pdf" ∧
    (resolveTarget c1Manifest c1Overrides).source = some "main.ptx" :=
  ⟨(C1_override_merge c1Manifest c1Overrides).1.1 "pdf" rfl,
   (C1_override_merge c1Manifest c1Overrides).2.1.2 rfl⟩

end Pretext
